import Mathlib

/-!
Shallow embedding of `aidl/powershare/PowerShare.cpp`, the single source file
of the PowerShare hardware service.  The service exposes four operations
(`getMinBattery`, `setMinBattery`, `isEnabled`, `setEnabled`) over a single
kernel pseudo-file (`/proc/wireless/enable_tx`), the ControlNode.

The filesystem is modelled as the state of that one node: whether it exists,
its textual content, and two fault flags describing whether a read or a write
on it fails.  The external helpers (`stat`, `ReadFileToString`,
`WriteStringToFile`) are modelled on that state; a failed write leaves the
node content unchanged, and a failed read returns no content.  Each service
operation is a pure function from the filesystem state to a transport status,
a payload where the interface has one, and the resulting filesystem state.
-/

namespace PowerShare

/-- Transport-level status of a remote call, modelling `ndk::ScopedAStatus`:
success or an exception carrying an error code.  The code under verification
only ever constructs the `ok` value. -/
inductive Status where
  | ok : Status
  | exception : Int → Status
deriving DecidableEq

/-- Control path constant from the anonymous namespace of `PowerShare.cpp`. -/
def kWirelessTxEnablePath : String := "/proc/wireless/enable_tx"

/-- State of the kernel-owned control node.  `node` is `none` when the node is
absent and `some c` when it exists with content `c`.  `readFails` and
`writeFails` describe the I/O environment: whether a read or a write on the
existing node fails. -/
structure FsState where
  node : Option String
  readFails : Bool
  writeFails : Bool
deriving DecidableEq

/-- Model of the POSIX `stat` call used by the service: returns `0` exactly
when a node exists at the given path (the modelled filesystem holds only the
control node), and `-1` otherwise. -/
def stat (fs : FsState) (path : String) : Int :=
  if path = kWirelessTxEnablePath ∧ fs.node.isSome then 0 else -1

/-- Model of `android::base::ReadFileToString`: yields the whole content when
the node exists at the given path and the read does not fail, and signals
failure (`none`) otherwise. -/
def ReadFileToString (fs : FsState) (path : String) : Option String :=
  if path = kWirelessTxEnablePath then
    match fs.node with
    | none => none
    | some c => if fs.readFails then none else some c
  else none

/-- Model of `android::base::WriteStringToFile` (truncating write): on success
the node content becomes exactly the written string and `true` is returned; on
failure the node is left unchanged and `false` is returned.  The third
argument mirrors the boolean passed at the call site in `setEnabled`. -/
def WriteStringToFile (content : String) (path : String) (followSymlinks : Bool)
    (fs : FsState) : Bool × FsState :=
  if path = kWirelessTxEnablePath ∧ ¬fs.writeFails then
    (true, { fs with node := some content })
  else
    (false, fs)

/-- `PowerShare::getMinBattery`: stores `0` in the out-parameter and returns
`ok`. -/
def getMinBattery (fs : FsState) : Status × Int × FsState :=
  (Status.ok, 0, fs)

/-- `PowerShare::isEnabled`: if `stat` on the control path fails, the
out-parameter is `false` and the call returns `ok`; if the read fails, the
out-parameter is `false` and the call returns `ok`; otherwise the
out-parameter is `value != "disable\n"` and the call returns `ok`. -/
def isEnabled (fs : FsState) : Status × Bool × FsState :=
  if stat fs kWirelessTxEnablePath ≠ 0 then
    (Status.ok, false, fs)
  else
    match ReadFileToString fs kWirelessTxEnablePath with
    | none => (Status.ok, false, fs)
    | some value => (Status.ok, value != "disable\n", fs)

/-- `PowerShare::setEnabled`: if `stat` on the control path fails, return `ok`
without writing; otherwise write `"1"` if `enable` else `"0"` to the control
path, and return `ok` whether or not the write succeeded. -/
def setEnabled (enable : Bool) (fs : FsState) : Status × FsState :=
  if stat fs kWirelessTxEnablePath ≠ 0 then
    (Status.ok, fs)
  else
    let result := WriteStringToFile (if enable then "1" else "0")
      kWirelessTxEnablePath true fs
    if result.1 = false then
      (Status.ok, result.2)
    else
      (Status.ok, result.2)

/-- `PowerShare::setMinBattery`: ignores its argument and returns `ok`. -/
def setMinBattery (minBattery : Int) (fs : FsState) : Status × FsState :=
  (Status.ok, fs)

/-- C1: `isEnabled` stores `false` exactly when the control node is absent,
or the read fails, or the content is the exact byte sequence `"disable\n"`;
every other readable content yields `true`. -/
theorem isEnabled_false_iff (fs : FsState) :
    (isEnabled fs).2.1 = false ↔
      fs.node = none ∨ fs.readFails = true ∨ fs.node = some "disable\n" := by
  rcases fs with ⟨node, r, w⟩
  cases node <;> cases r <;>
    simp [isEnabled, stat, ReadFileToString, kWirelessTxEnablePath]

/-- C2: every one of the four operations returns transport-level success
(`Status.ok`) in every filesystem state, for every argument: no error ever
crosses the public interface. -/
theorem all_calls_return_ok (fs : FsState) (enable : Bool) (v : Int) :
    (getMinBattery fs).1 = Status.ok ∧
    (isEnabled fs).1 = Status.ok ∧
    (setEnabled enable fs).1 = Status.ok ∧
    (setMinBattery v fs).1 = Status.ok := by
  refine ⟨rfl, ?_, ?_, rfl⟩
  · unfold isEnabled
    split
    · rfl
    · cases ReadFileToString fs kWirelessTxEnablePath <;> rfl
  · unfold setEnabled
    split
    · rfl
    · simp only [ite_self]

/-- C3: when the control node exists and is writable, `setEnabled enable`
leaves the node content exactly `"1"` when `enable` is true and exactly `"0"`
when it is false, and returns success. -/
theorem setEnabled_writes_token (fs : FsState) (c : String) (enable : Bool)
    (hnode : fs.node = some c) (hw : fs.writeFails = false) :
    (setEnabled enable fs).2.node = some (if enable then "1" else "0") ∧
    (setEnabled enable fs).1 = Status.ok := by
  rcases fs with ⟨node, r, w⟩
  cases hnode
  cases hw
  cases enable <;>
    simp [setEnabled, stat, WriteStringToFile, kWirelessTxEnablePath]

/-- Witness for C3 at a concrete state whose node holds `"junk"`. -/
theorem setEnabled_writes_token_witness :
    (setEnabled true ⟨some "junk", false, false⟩).2.node = some "1" ∧
    (setEnabled true ⟨some "junk", false, false⟩).1 = Status.ok := by
  have h := setEnabled_writes_token ⟨some "junk", false, false⟩ "junk" true rfl rfl
  exact ⟨h.1, h.2⟩

/-- C4: starting from a readable, writable node containing `"1"`:
`isEnabled` yields `true`; after `setEnabled false` the node contains exactly
`"0"`; and `isEnabled` on the resulting state still yields `true`, because
`"0"` differs from the off-sentinel `"disable\n"`. -/
theorem setEnabled_isEnabled_no_roundtrip :
    (isEnabled ⟨some "1", false, false⟩).2.1 = true ∧
    (setEnabled false ⟨some "1", false, false⟩).2.node = some "0" ∧
    (isEnabled (setEnabled false ⟨some "1", false, false⟩).2).2.1 = true := by
  decide

/-- C5: `setEnabled` on a state where the control node is absent returns
success and leaves the filesystem state unchanged: no file is created. -/
theorem setEnabled_absent_noop (fs : FsState) (enable : Bool)
    (h : fs.node = none) :
    setEnabled enable fs = (Status.ok, fs) := by
  rcases fs with ⟨node, r, w⟩
  cases h
  simp [setEnabled, stat, kWirelessTxEnablePath]

/-- Witness for C5 at a concrete absent-node state. -/
theorem setEnabled_absent_noop_witness :
    setEnabled true ⟨none, false, false⟩ =
      (Status.ok, (⟨none, false, false⟩ : FsState)) :=
  setEnabled_absent_noop ⟨none, false, false⟩ true rfl

/-- C6: `getMinBattery` stores `0` and returns `ok` in every state, and still
stores `0` after any prior `setMinBattery v` call: the threshold is never
persisted. -/
theorem getMinBattery_always_zero (fs : FsState) (v : Int) :
    (getMinBattery fs).2.1 = 0 ∧
    (getMinBattery fs).1 = Status.ok ∧
    (getMinBattery (setMinBattery v fs).2).2.1 = 0 := by
  exact ⟨rfl, rfl, rfl⟩

/-- C7: `setMinBattery` returns success and leaves the state unchanged, so
every subsequent call to `getMinBattery`, `isEnabled`, or `setEnabled`
behaves exactly as it would have without it. -/
theorem setMinBattery_frame (fs : FsState) (v : Int) (enable : Bool) :
    setMinBattery v fs = (Status.ok, fs) ∧
    getMinBattery (setMinBattery v fs).2 = getMinBattery fs ∧
    isEnabled (setMinBattery v fs).2 = isEnabled fs ∧
    setEnabled enable (setMinBattery v fs).2 = setEnabled enable fs := by
  exact ⟨rfl, rfl, rfl, rfl⟩

/-- C8: `isEnabled` is read-only: the filesystem state after the call is
exactly the starting state. -/
theorem isEnabled_readonly (fs : FsState) :
    (isEnabled fs).2.2 = fs := by
  unfold isEnabled
  split
  · rfl
  · cases ReadFileToString fs kWirelessTxEnablePath <;> rfl

/-- C10, counterexample: two starting states with an existing node, differing
only in the prior content, on which `setEnabled true` yields different
resulting contents — when the write fails, each node keeps its own prior
content, so the resulting content does depend on the prior content. -/
theorem setEnabled_result_depends_on_prior_content :
    (setEnabled true ⟨some "a", false, true⟩).2.node ≠
    (setEnabled true ⟨some "b", false, true⟩).2.node := by
  decide

/-- C10, amended: `setEnabled` never branches on the node's content: for any
two starting states where the node exists, differing only in content, it
returns the same status; and when the node is writable both runs end with the
same content, the written token. -/
theorem setEnabled_content_independent (c₁ c₂ : String) (r w : Bool)
    (enable : Bool) :
    (setEnabled enable ⟨some c₁, r, w⟩).1 =
      (setEnabled enable ⟨some c₂, r, w⟩).1 ∧
    (w = false →
      (setEnabled enable ⟨some c₁, r, w⟩).2.node =
        some (if enable then "1" else "0") ∧
      (setEnabled enable ⟨some c₂, r, w⟩).2.node =
        some (if enable then "1" else "0")) := by
  constructor
  · cases w <;>
      simp [setEnabled, stat, WriteStringToFile, kWirelessTxEnablePath]
  · intro hw
    cases hw
    constructor <;>
      simp [setEnabled, stat, WriteStringToFile, kWirelessTxEnablePath]

/-- Witness for the amended C10 at concrete contents `"a"` and `"b"`. -/
theorem setEnabled_content_independent_witness :
    (setEnabled true ⟨some "a", false, false⟩).1 =
      (setEnabled true ⟨some "b", false, false⟩).1 ∧
    (setEnabled true ⟨some "a", false, false⟩).2.node = some "1" := by
  have h := setEnabled_content_independent "a" "b" false false true
  exact ⟨h.1, (h.2 rfl).1⟩

end PowerShare
